import Mathlib

/-!
Verification of the visitor-management core: the overdue/alert classifier
(AlertsScreen) and the record search filter (CheckOutScreen), embedded
shallowly from the TypeScript source.  Timestamps are modelled as integer
milliseconds since the epoch (JavaScript `Date.getTime()`), and the
floating-point hour computations of the source as exact rational
arithmetic.
-/

/-- Client-side visitor record, from `src/types/index.ts` (the variant with
`gender`, `tagNumber` and `tagNotGiven`).  `timeIn` is in epoch
milliseconds; optional string fields are `Option String`; the optional
boolean `tagNotGiven` is modelled with JavaScript falsiness, absent = `false`. -/
structure Visitor where
  id : String
  visitorName : String
  phoneNumber : String
  idNumber : String
  refNumber : Option String
  residence : String
  institutionOccupation : String
  purposeOfVisit : String
  gender : String
  tagNumber : Option String
  tagNotGiven : Bool
  timeIn : Int
  isCheckedOut : Bool
  deriving DecidableEq

/-- Elapsed hours as a real-valued quantity:
`(now.getTime() - timeIn.getTime()) / (1000 * 60 * 60)` from
`fetchOverdueVisitors` in AlertsScreen. -/
def hoursSinceCheckIn (now ti : Int) : ℚ :=
  ((now - ti : Int) : ℚ) / (1000 * 60 * 60)

/-- The overdue snapshot: the Firestore query keeps records with
`isCheckedOut == false`, and the snapshot callback pushes a visitor onto
the list iff `hoursSinceCheckIn > 12` (AlertsScreen, `fetchOverdueVisitors`). -/
def fetchOverdueVisitors (now : Int) (vs : List Visitor) : List Visitor :=
  (vs.filter (fun v => v.isCheckedOut == false)).filter
    (fun v => hoursSinceCheckIn now v.timeIn > 12)

/-- Floored elapsed hours:
`Math.floor((now.getTime() - timeIn.getTime()) / (1000 * 60 * 60))`
from `getHoursOverdue` in AlertsScreen. -/
def getHoursOverdue (now ti : Int) : Int :=
  ⌊((now - ti : Int) : ℚ) / (1000 * 60 * 60)⌋

/-- Alert bucket from floored hours (`getAlertLevel` in AlertsScreen). -/
def getAlertLevel (hours : Int) : String :=
  if hours ≥ 24 then "critical"
  else if hours ≥ 18 then "high"
  else if hours ≥ 12 then "medium"
  else "low"

/-- Total count shown in the summary card: `overdueVisitors.length`. -/
def totalOverdue (now : Int) (vs : List Visitor) : Nat :=
  (fetchOverdueVisitors now vs).length

/-- Critical count: `overdueVisitors.filter(v => getHoursOverdue(v.timeIn) >= 24).length`. -/
def criticalCount (now : Int) (vs : List Visitor) : Nat :=
  ((fetchOverdueVisitors now vs).filter
    (fun v => getHoursOverdue now v.timeIn ≥ 24)).length

/-- High count: `filter(v => getHoursOverdue(v.timeIn) >= 18 && getHoursOverdue(v.timeIn) < 24).length`. -/
def highCount (now : Int) (vs : List Visitor) : Nat :=
  ((fetchOverdueVisitors now vs).filter
    (fun v => getHoursOverdue now v.timeIn ≥ 18 ∧ getHoursOverdue now v.timeIn < 24)).length

/-- Medium count: `filter(v => getHoursOverdue(v.timeIn) >= 12 && getHoursOverdue(v.timeIn) < 18).length`. -/
def mediumCount (now : Int) (vs : List Visitor) : Nat :=
  ((fetchOverdueVisitors now vs).filter
    (fun v => getHoursOverdue now v.timeIn ≥ 12 ∧ getHoursOverdue now v.timeIn < 18)).length

/-- Displayed list:
`overdueVisitors.sort((a, b) => getHoursOverdue(b.timeIn) - getHoursOverdue(a.timeIn))`,
i.e. descending by floored hours; the sort itself is modelled by insertion
sort with the comparator's order. -/
def displayedOverdue (now : Int) (vs : List Visitor) : List Visitor :=
  List.insertionSort
    (fun a b => getHoursOverdue now b.timeIn ≤ getHoursOverdue now a.timeIn)
    (fetchOverdueVisitors now vs)

/- String machinery for the search filter.  JavaScript `String.includes`
is contiguous-substring search; `toLowerCase` is modelled per character. -/

/-- Boolean test that `sub` is an initial segment of `s`. -/
def startsWithL : List Char → List Char → Bool
  | [], _ => true
  | _ :: _, [] => false
  | a :: as, b :: bs => a == b && startsWithL as bs

/-- Boolean test that `sub` occurs contiguously somewhere in `s`. -/
def occursIn (sub : List Char) : List Char → Bool
  | [] => sub.isEmpty
  | b :: bs => startsWithL sub (b :: bs) || occursIn sub bs

/-- JavaScript `s.includes(sub)`. -/
def jsIncludes (s sub : String) : Bool := occursIn sub.toList s.toList

/-- JavaScript `s.toLowerCase()`, character-wise. -/
def strLower (s : String) : String := String.mk (s.toList.map Char.toLower)

/-- JavaScript `s.trim() === ''`: the string is empty or whitespace-only. -/
def trimIsEmpty (s : String) : Bool := s.toList.all Char.isWhitespace

/-- Specification-level substring relation: `sub` occurs contiguously in `s`. -/
def SubstrOf (sub s : String) : Prop :=
  ∃ pre post : List Char, s.toList = pre ++ sub.toList ++ post

/- The eleven field predicates of the CheckOutScreen search filter, in
source order; `lq` is the lowercased query and `q` the raw query. -/

/-- Lowercased-field inclusion for an optional field guarded by `?.`. -/
def optLowerIncludes (o : Option String) (lq : String) : Bool :=
  match o with
  | some s => jsIncludes (strLower s) lq
  | none => false

/-- Line `visitor.visitorName?.toLowerCase().includes(lowercasedQuery)`. -/
def matchByName (lq : String) (v : Visitor) : Bool :=
  jsIncludes (strLower v.visitorName) lq

/-- Line `visitor.phoneNumber?.includes(searchQuery)` (raw query). -/
def matchByPhone (q : String) (v : Visitor) : Bool :=
  jsIncludes v.phoneNumber q

/-- Line `visitor.idNumber?.includes(searchQuery)` (raw query). -/
def matchById (q : String) (v : Visitor) : Bool :=
  jsIncludes v.idNumber q

/-- Line `visitor.refNumber?.toLowerCase().includes(lowercasedQuery)`. -/
def matchByRef (lq : String) (v : Visitor) : Bool :=
  optLowerIncludes v.refNumber lq

/-- Line `visitor.tagNumber?.toLowerCase().includes(lowercasedQuery)`. -/
def matchByTag (lq : String) (v : Visitor) : Bool :=
  optLowerIncludes v.tagNumber lq

/-- Line `visitor.tagNotGiven && 'no tag'.includes(lowercasedQuery)`. -/
def matchByNoTag (lq : String) (v : Visitor) : Bool :=
  v.tagNotGiven && jsIncludes "no tag" lq

/-- Line `!visitor.tagNotGiven && visitor.tagNumber && visitor.tagNumber !== 'N/A' && 'has tag'.includes(lowercasedQuery)`;
JavaScript truthiness of `tagNumber` excludes the empty string. -/
def matchByHasTag (lq : String) (v : Visitor) : Bool :=
  !v.tagNotGiven &&
    (match v.tagNumber with
      | some t => !(t == "") && !(t == "N/A")
      | none => false) &&
    jsIncludes "has tag" lq

/-- Line `visitor.residence?.toLowerCase().includes(lowercasedQuery)`. -/
def matchByResidence (lq : String) (v : Visitor) : Bool :=
  jsIncludes (strLower v.residence) lq

/-- Line `visitor.institutionOccupation?.toLowerCase().includes(lowercasedQuery)`. -/
def matchByInstitution (lq : String) (v : Visitor) : Bool :=
  jsIncludes (strLower v.institutionOccupation) lq

/-- Line `visitor.purposeOfVisit?.toLowerCase().includes(lowercasedQuery)`. -/
def matchByPurpose (lq : String) (v : Visitor) : Bool :=
  jsIncludes (strLower v.purposeOfVisit) lq

/-- Line `visitor.gender?.toLowerCase().includes(lowercasedQuery)`. -/
def matchByGender (lq : String) (v : Visitor) : Bool :=
  jsIncludes (strLower v.gender) lq

/-- The filter predicate of the CheckOutScreen search `useEffect`: a
disjunction of the early-return tests, in source order. -/
def matchesVisitor (query : String) (v : Visitor) : Bool :=
  let lq := strLower query
  matchByName lq v || matchByPhone query v || matchById query v ||
  matchByRef lq v || matchByTag lq v || matchByNoTag lq v || matchByHasTag lq v ||
  matchByResidence lq v || matchByInstitution lq v || matchByPurpose lq v ||
  matchByGender lq v

/-- The search filter: `searchQuery.trim() === ''` keeps the whole list,
otherwise `visitors.filter(...)` with the predicate above. -/
def filterVisitors (query : String) (vs : List Visitor) : List Visitor :=
  if trimIsEmpty query then vs else vs.filter (fun v => matchesVisitor query v)

/- Visitor-record lifecycle: the Firestore document written by
`handleCheckIn` (CheckInScreen), mutated by `handleCheckOut`
(CheckOutScreen) and `handleUpdateVisitor` (EditVisitorForm). -/

/-- JavaScript `s.trim()`: strip leading and trailing whitespace. -/
def jsTrim (s : String) : String :=
  String.mk
    (((s.toList.dropWhile Char.isWhitespace).reverse.dropWhile Char.isWhitespace).reverse)

/-- Form state of CheckInScreen (`formData`). -/
structure CheckInForm where
  visitorName : String
  phoneNumber : String
  idNumber : String
  refNumber : String
  residence : String
  institutionOccupation : String
  purposeOfVisit : String
  deriving DecidableEq

/-- Stored visitor document; fields absent from a write are `none`. -/
structure VisitorDoc where
  visitorName : String
  phoneNumber : String
  idNumber : String
  refNumber : Option String
  residence : String
  institutionOccupation : String
  purposeOfVisit : String
  gender : String
  tagNumber : Option String
  timeIn : Int
  visitorType : String
  checkedInBy : String
  isCheckedOut : Bool
  timeOut : Option Int
  checkedOutBy : Option String
  updatedAt : Option Int
  updatedBy : Option String
  deriving DecidableEq

/-- Check-in (`handleCheckIn` in CheckInScreen): after validation,
`addDoc` writes the trimmed fields with `timeIn: now`,
`isCheckedOut: false` and no `timeOut` key; `refNumber` is included only
for a vehicle visitor with a non-empty plate.  `none` models the
early-return validation paths. -/
def handleCheckIn (form : CheckInForm) (gender : String) (visitorType : String)
    (now : Int) (uid : String) : Option VisitorDoc :=
  if jsTrim form.visitorName == "" || jsTrim form.phoneNumber == "" ||
      jsTrim form.idNumber == "" || jsTrim form.residence == "" ||
      jsTrim form.institutionOccupation == "" || jsTrim form.purposeOfVisit == "" then
    none
  else if gender == "" then
    none
  else if visitorType == "vehicle" && jsTrim form.refNumber == "" then
    none
  else
    some
      { visitorName := jsTrim form.visitorName
        phoneNumber := jsTrim form.phoneNumber
        idNumber := jsTrim form.idNumber
        refNumber :=
          if visitorType == "vehicle" && !(jsTrim form.refNumber == "") then
            some (jsTrim form.refNumber)
          else none
        residence := jsTrim form.residence
        institutionOccupation := jsTrim form.institutionOccupation
        purposeOfVisit := jsTrim form.purposeOfVisit
        gender := gender
        tagNumber := none
        timeIn := now
        visitorType := visitorType
        checkedInBy := uid
        isCheckedOut := false
        timeOut := none
        checkedOutBy := none
        updatedAt := none
        updatedBy := none }

/-- Check-out (`handleCheckOut` in CheckOutScreen): one `updateDoc`
setting `timeOut`, `isCheckedOut: true` and `checkedOutBy` together. -/
def handleCheckOut (d : VisitorDoc) (now : Int) (uid : String) : VisitorDoc :=
  { d with timeOut := some now, isCheckedOut := true, checkedOutBy := some uid }

/-- Form state of EditVisitorForm (`formData`). -/
structure EditForm where
  visitorName : String
  phoneNumber : String
  idNumber : String
  residence : String
  institutionOccupation : String
  purposeOfVisit : String
  tagNumber : String
  gender : String
  deriving DecidableEq

/-- Edit (`handleUpdateVisitor` in EditVisitorForm): after validation, one
`updateDoc` replacing the listed non-lifecycle fields plus
`updatedAt`/`updatedBy`; it never touches `timeIn`, `timeOut` or
`isCheckedOut`. -/
def handleUpdateVisitor (d : VisitorDoc) (form : EditForm) (now : Int)
    (uid : String) : Option VisitorDoc :=
  if form.visitorName == "" || form.phoneNumber == "" || form.residence == "" then
    none
  else
    some
      { d with
        visitorName := form.visitorName
        phoneNumber := form.phoneNumber
        idNumber := form.idNumber
        residence := form.residence
        institutionOccupation := form.institutionOccupation
        purposeOfVisit := form.purposeOfVisit
        tagNumber := some form.tagNumber
        gender := form.gender
        updatedAt := some now
        updatedBy := some uid }

/-- The record invariant of the spec: `isCheckedOut == (timeOut is present)`. -/
def docInv (d : VisitorDoc) : Prop :=
  d.isCheckedOut = d.timeOut.isSome

/- Concrete records used as test inputs. -/

/-- An active visitor who checked in at time 0 (used at `now` = 12h30m). -/
def vHalfDay : Visitor :=
  { id := "v1", visitorName := "Amina", phoneNumber := "0700111222",
    idNumber := "11111111", refNumber := none, residence := "Umma",
    institutionOccupation := "Student", purposeOfVisit := "Library",
    gender := "Female", tagNumber := none, tagNotGiven := false,
    timeIn := 0, isCheckedOut := false }

/-- An active visitor checked in at time 0, for the 12h boundary test. -/
def vBoundary : Visitor :=
  { id := "v2", visitorName := "Brian", phoneNumber := "0700333444",
    idNumber := "22222222", refNumber := none, residence := "Umma",
    institutionOccupation := "Clerk", purposeOfVisit := "Office",
    gender := "Male", tagNumber := none, tagNotGiven := false,
    timeIn := 0, isCheckedOut := false }

/-- An active visitor whose `timeIn` (1 ms) lies in the future of `now` = 0. -/
def vFuture : Visitor :=
  { id := "v3", visitorName := "Carol", phoneNumber := "0700555666",
    idNumber := "33333333", refNumber := none, residence := "Umma",
    institutionOccupation := "Vendor", purposeOfVisit := "Delivery",
    gender := "Female", tagNumber := none, tagNotGiven := false,
    timeIn := 1, isCheckedOut := false }

/-- Active visitor 13 hours before `now` = 0. -/
def w13 : Visitor :=
  { id := "w13", visitorName := "Dan", phoneNumber := "0711000013",
    idNumber := "40000013", refNumber := none, residence := "Umma",
    institutionOccupation := "Guest", purposeOfVisit := "Meeting",
    gender := "Male", tagNumber := none, tagNotGiven := false,
    timeIn := -46800000, isCheckedOut := false }

/-- Active visitor 19 hours before `now` = 0. -/
def w19 : Visitor :=
  { id := "w19", visitorName := "Esi", phoneNumber := "0711000019",
    idNumber := "40000019", refNumber := none, residence := "Umma",
    institutionOccupation := "Guest", purposeOfVisit := "Meeting",
    gender := "Female", tagNumber := none, tagNotGiven := false,
    timeIn := -68400000, isCheckedOut := false }

/-- Active visitor 25 hours before `now` = 0. -/
def w25 : Visitor :=
  { id := "w25", visitorName := "Fred", phoneNumber := "0711000025",
    idNumber := "40000025", refNumber := none, residence := "Umma",
    institutionOccupation := "Guest", purposeOfVisit := "Meeting",
    gender := "Male", tagNumber := none, tagNotGiven := false,
    timeIn := -90000000, isCheckedOut := false }

/-- Active visitor 11 hours before `now` = 0 (not overdue). -/
def w11 : Visitor :=
  { id := "w11", visitorName := "Gina", phoneNumber := "0711000011",
    idNumber := "40000011", refNumber := none, residence := "Umma",
    institutionOccupation := "Guest", purposeOfVisit := "Meeting",
    gender := "Female", tagNumber := none, tagNotGiven := false,
    timeIn := -39600000, isCheckedOut := false }

/-- Active visitor 24 hours before `now` = 0. -/
def w24 : Visitor :=
  { id := "w24", visitorName := "Hal", phoneNumber := "0711000024",
    idNumber := "40000024", refNumber := none, residence := "Umma",
    institutionOccupation := "Guest", purposeOfVisit := "Meeting",
    gender := "Male", tagNumber := none, tagNotGiven := false,
    timeIn := -86400000, isCheckedOut := false }

/-- The five-visitor aggregation example with hours [13, 19, 25, 11, 24]. -/
def exFiveVisitors : List Visitor := [w13, w19, w25, w11, w24]

/-- A vehicle visitor with plate `"KBC123"` (uppercase). -/
def vPlate : Visitor :=
  { id := "v6", visitorName := "Ivan", phoneNumber := "0712345678",
    idNumber := "34567890", refNumber := some "KBC123", residence := "Umma",
    institutionOccupation := "Driver", purposeOfVisit := "Dropoff",
    gender := "Male", tagNumber := none, tagNotGiven := false,
    timeIn := 0, isCheckedOut := false }

/-- A visitor whose `tagNumber` is the literal string `"N/A"`, and none of
whose other fields contain the text `"n/a"`. -/
def vTagNA : Visitor :=
  { id := "v7", visitorName := "Bob", phoneNumber := "0712", idNumber := "123",
    refNumber := none, residence := "Town", institutionOccupation := "Shop",
    purposeOfVisit := "Visit", gender := "Male", tagNumber := some "N/A",
    tagNotGiven := false, timeIn := 0, isCheckedOut := false }

/-- A generic visitor used for the filter-identity test. -/
def vSample : Visitor :=
  { id := "v8", visitorName := "Jane Doe", phoneNumber := "0798765432",
    idNumber := "55555555", refNumber := none, residence := "Umma",
    institutionOccupation := "Lecturer", purposeOfVisit := "Seminar",
    gender := "Female", tagNumber := some "T9", tagNotGiven := false,
    timeIn := 0, isCheckedOut := false }

/-- A valid CheckInScreen form. -/
def ciForm : CheckInForm :=
  { visitorName := "Jane Doe", phoneNumber := "0700", idNumber := "123",
    refNumber := "", residence := "Umma", institutionOccupation := "Student",
    purposeOfVisit := "Visit" }

/-- The document `handleCheckIn ciForm "Female" "foot" 100 "u1"` writes. -/
def dCI : VisitorDoc :=
  { visitorName := "Jane Doe", phoneNumber := "0700", idNumber := "123",
    refNumber := none, residence := "Umma", institutionOccupation := "Student",
    purposeOfVisit := "Visit", gender := "Female", tagNumber := none,
    timeIn := 100, visitorType := "foot", checkedInBy := "u1",
    isCheckedOut := false, timeOut := none, checkedOutBy := none,
    updatedAt := none, updatedBy := none }

/-- A valid EditVisitorForm form. -/
def edForm : EditForm :=
  { visitorName := "Jane D", phoneNumber := "0700", idNumber := "123",
    residence := "Umma", institutionOccupation := "Student",
    purposeOfVisit := "Visit", tagNumber := "T1", gender := "Female" }

/-- The document `handleUpdateVisitor dCI edForm 300 "u3"` writes. -/
def dED : VisitorDoc :=
  { dCI with
    visitorName := "Jane D", phoneNumber := "0700", idNumber := "123",
    residence := "Umma", institutionOccupation := "Student",
    purposeOfVisit := "Visit", tagNumber := some "T1", gender := "Female",
    updatedAt := some 300, updatedBy := some "u3" }

/- Bridge lemmas between the rational-valued source arithmetic and integer
milliseconds. -/

lemma hoursSince_gt12_iff (now ti : Int) :
    hoursSinceCheckIn now ti > 12 ↔ 12 * (1000 * 60 * 60) < now - ti := by
  unfold hoursSinceCheckIn
  rw [gt_iff_lt, lt_div_iff₀ (by norm_num : (0 : ℚ) < 1000 * 60 * 60)]
  constructor
  · intro h
    exact_mod_cast h
  · intro h
    exact_mod_cast h

lemma getHoursOverdue_eq (now ti : Int) :
    getHoursOverdue now ti = (now - ti) / (3600000 : Int) := by
  unfold getHoursOverdue
  rw [show ((1000 * 60 * 60 : ℚ)) = ((3600000 : ℕ) : ℚ) by norm_num]
  rw [Rat.floor_intCast_div_natCast]
  norm_num

lemma fetchOverdue_eq_intFilter (now : Int) (vs : List Visitor) :
    fetchOverdueVisitors now vs =
      (vs.filter (fun v => v.isCheckedOut == false)).filter
        (fun v => decide (12 * (1000 * 60 * 60) < now - v.timeIn)) := by
  unfold fetchOverdueVisitors
  congr 1
  funext v
  exact decide_eq_decide.mpr (hoursSince_gt12_iff now v.timeIn)

lemma mem_fetchOverdue (now : Int) (vs : List Visitor) (v : Visitor) :
    v ∈ fetchOverdueVisitors now vs ↔
      v ∈ vs ∧ v.isCheckedOut = false ∧ 12 * (1000 * 60 * 60) < now - v.timeIn := by
  unfold fetchOverdueVisitors
  simp only [List.mem_filter, decide_eq_true_eq, beq_iff_eq, and_assoc]
  rw [hoursSince_gt12_iff]

lemma overdue_hours_ge_twelve (now ti : Int)
    (h : 12 * (1000 * 60 * 60) < now - ti) : 12 ≤ getHoursOverdue now ti := by
  unfold getHoursOverdue
  rw [Int.le_floor]
  rw [le_div_iff₀ (by norm_num : (0 : ℚ) < 1000 * 60 * 60)]
  have h' : (12 * (1000 * 60 * 60) : ℚ) < ((now - ti : Int) : ℚ) := by
    exact_mod_cast h
  push_cast
  push_cast at h'
  linarith

lemma getHoursOverdue_neg (now ti : Int) (h : now < ti) :
    getHoursOverdue now ti < 0 := by
  unfold getHoursOverdue
  have hq : ((now - ti : Int) : ℚ) / (1000 * 60 * 60) < 0 := by
    apply div_neg_of_neg_of_pos
    · exact_mod_cast Int.sub_neg_of_lt h
    · norm_num
  have := Int.floor_le (((now - ti : Int) : ℚ) / (1000 * 60 * 60))
  by_contra hc
  push_neg at hc
  have : (0 : ℚ) ≤ (⌊((now - ti : Int) : ℚ) / (1000 * 60 * 60)⌋ : ℚ) := by
    exact_mod_cast hc
  linarith

/- Bool-level rewrites letting concrete count computations run on integer
division instead of rational floors. -/

lemma decide_hours_ge (now ti c : Int) :
    decide (getHoursOverdue now ti ≥ c) = decide ((now - ti) / (3600000 : Int) ≥ c) := by
  rw [getHoursOverdue_eq]

lemma decide_hours_band (now ti c d : Int) :
    decide (getHoursOverdue now ti ≥ c ∧ getHoursOverdue now ti < d) =
      decide ((now - ti) / (3600000 : Int) ≥ c ∧ (now - ti) / (3600000 : Int) < d) := by
  rw [getHoursOverdue_eq]

/- Substring lemmas. -/

lemma startsWithL_iff (sub s : List Char) :
    startsWithL sub s = true ↔ ∃ post, s = sub ++ post := by
  induction sub generalizing s with
  | nil => simp [startsWithL]
  | cons a as ih =>
    cases s with
    | nil => simp [startsWithL]
    | cons b bs =>
      simp only [startsWithL, Bool.and_eq_true, beq_iff_eq, ih, List.cons_append,
        List.cons.injEq]
      constructor
      · rintro ⟨rfl, post, rfl⟩
        exact ⟨post, rfl, rfl⟩
      · rintro ⟨post, rfl, rfl⟩
        exact ⟨rfl, post, rfl⟩

lemma occursIn_iff (sub s : List Char) :
    occursIn sub s = true ↔ ∃ pre post, s = pre ++ sub ++ post := by
  induction s with
  | nil =>
    simp only [occursIn, List.isEmpty_iff]
    constructor
    · rintro rfl
      exact ⟨[], [], rfl⟩
    · rintro ⟨pre, post, h⟩
      rcases List.append_eq_nil.mp (List.append_eq_nil.mp h.symm).1 with ⟨-, h2⟩
      exact h2
  | cons b bs ih =>
    simp only [occursIn, Bool.or_eq_true, startsWithL_iff, ih]
    constructor
    · rintro (⟨post, h⟩ | ⟨pre, post, h⟩)
      · exact ⟨[], post, by simpa using h⟩
      · exact ⟨b :: pre, post, by simp [h]⟩
    · rintro ⟨pre, post, h⟩
      cases pre with
      | nil =>
        left
        exact ⟨post, by simpa using h⟩
      | cons c cs =>
        right
        rw [List.cons_append, List.cons_append] at h
        injection h with h1 h2
        exact ⟨cs, post, h2⟩

lemma jsIncludes_iff (s sub : String) :
    jsIncludes s sub = true ↔ SubstrOf sub s := by
  unfold jsIncludes SubstrOf
  exact occursIn_iff sub.toList s.toList

/- Bucket-partition counting lemma. -/

lemma length_bucket_partition (g : Visitor → Int) (l : List Visitor)
    (hl : ∀ v ∈ l, 12 ≤ g v) :
    l.length = (l.filter (fun v => g v ≥ 24)).length +
      (l.filter (fun v => g v ≥ 18 ∧ g v < 24)).length +
      (l.filter (fun v => g v ≥ 12 ∧ g v < 18)).length := by
  induction l with
  | nil => simp
  | cons v t ih =>
    have hv : 12 ≤ g v := hl v (List.mem_cons_self v t)
    have ht := ih (fun w hw => hl w (List.mem_cons_of_mem v hw))
    simp only [List.filter_cons, List.length_cons]
    by_cases h24 : 24 ≤ g v
    · rw [if_pos (by simp only [ge_iff_le, decide_eq_true_eq]; exact h24),
        if_neg (by simp only [ge_iff_le, decide_eq_true_eq]; omega),
        if_neg (by simp only [ge_iff_le, decide_eq_true_eq]; omega)]
      simp only [List.length_cons]
      omega
    · by_cases h18 : 18 ≤ g v
      · rw [if_neg (by simp only [ge_iff_le, decide_eq_true_eq]; omega),
          if_pos (by simp only [ge_iff_le, decide_eq_true_eq]; exact ⟨h18, by omega⟩),
          if_neg (by simp only [ge_iff_le, decide_eq_true_eq]; omega)]
        simp only [List.length_cons]
        omega
      · rw [if_neg (by simp only [ge_iff_le, decide_eq_true_eq]; omega),
          if_neg (by simp only [ge_iff_le, decide_eq_true_eq]; omega),
          if_pos (by simp only [ge_iff_le, decide_eq_true_eq]; exact ⟨hv, by omega⟩)]
        simp only [List.length_cons]
        omega

/-- C1 counterexample: a visitor checked in 12 hours 30 minutes before
`now` (timeIn = 0, now = 45000000 ms) has floored `hoursOverdue` exactly
12, so `hoursOverdue > 12` is false — yet the visitor IS in the
overdue/alert collection, because membership compares the un-floored
elapsed hours. -/
theorem alert_membership_floor_cex :
    getHoursOverdue 45000000 vHalfDay.timeIn = 12 ∧
    ¬ 12 < getHoursOverdue 45000000 vHalfDay.timeIn ∧
    vHalfDay ∈ fetchOverdueVisitors 45000000 [vHalfDay] := by
  have h1 : getHoursOverdue 45000000 vHalfDay.timeIn = 12 := by
    rw [getHoursOverdue_eq]
    decide
  refine ⟨h1, by omega, ?_⟩
  rw [fetchOverdue_eq_intFilter]
  decide

/-- C1 (amended): a non-checked-out visitor appears in the overdue/alert
collection iff the un-floored elapsed time strictly exceeds 12 hours,
i.e. `now - timeIn > 12 * 3600000` milliseconds; the floored
`hoursOverdue` is not used for membership. -/
theorem alert_membership_unfloored (now : Int) (vs : List Visitor) (v : Visitor) :
    v ∈ fetchOverdueVisitors now vs ↔
      v ∈ vs ∧ v.isCheckedOut = false ∧ 12 * (1000 * 60 * 60) < now - v.timeIn :=
  mem_fetchOverdue now vs v

/-- C2: a non-checked-out visitor checked in exactly 12h0m before `now` is
excluded from the overdue/alert set, and one checked in exactly 12h1m
before `now` is included. -/
theorem alert_boundary_12h (v : Visitor) (h : v.isCheckedOut = false) :
    v ∉ fetchOverdueVisitors (v.timeIn + 12 * (1000 * 60 * 60)) [v] ∧
    v ∈ fetchOverdueVisitors (v.timeIn + 12 * (1000 * 60 * 60) + 60 * 1000) [v] := by
  constructor
  · intro hmem
    rcases (mem_fetchOverdue _ _ _).mp hmem with ⟨-, -, hlt⟩
    omega
  · exact (mem_fetchOverdue _ _ _).mpr
      ⟨List.mem_singleton.mpr rfl, h, by omega⟩

/-- C2 witness at a concrete visitor with `timeIn` = 0. -/
theorem alert_boundary_12h_witness :
    vBoundary ∉ fetchOverdueVisitors (vBoundary.timeIn + 12 * (1000 * 60 * 60)) [vBoundary] ∧
    vBoundary ∈ fetchOverdueVisitors (vBoundary.timeIn + 12 * (1000 * 60 * 60) + 60 * 1000) [vBoundary] :=
  alert_boundary_12h vBoundary rfl

/-- C3: for every integer hour count `h`, the bucket is `critical` iff
`h ≥ 24`, `high` iff `18 ≤ h < 24`, `medium` iff `12 ≤ h < 18`, and
`low` otherwise (iff `h < 12`). -/
theorem alertLevel_thresholds (h : Int) :
    (getAlertLevel h = "critical" ↔ 24 ≤ h) ∧
    (getAlertLevel h = "high" ↔ 18 ≤ h ∧ h < 24) ∧
    (getAlertLevel h = "medium" ↔ 12 ≤ h ∧ h < 18) ∧
    (getAlertLevel h = "low" ↔ h < 12) := by
  unfold getAlertLevel
  split_ifs with h1 h2 h3 <;> simp_all <;> omega

/-- C10: for a `timeIn` strictly later than `now`, `getHoursOverdue` is a
negative integer, `getAlertLevel` of it is `"low"`, and the visitor is
excluded from the overdue set (the pipeline is total — every function
returns a value). -/
theorem future_checkin_safe (now : Int) (v : Visitor) (vs : List Visitor)
    (h : now < v.timeIn) :
    getHoursOverdue now v.timeIn < 0 ∧
    getAlertLevel (getHoursOverdue now v.timeIn) = "low" ∧
    v ∉ fetchOverdueVisitors now vs := by
  have hneg := getHoursOverdue_neg now v.timeIn h
  refine ⟨hneg, ?_, ?_⟩
  · unfold getAlertLevel
    rw [if_neg (by omega), if_neg (by omega), if_neg (by omega)]
  · intro hmem
    rcases (mem_fetchOverdue _ _ _).mp hmem with ⟨-, -, hlt⟩
    omega

/-- C10 witness at `now` = 0 with a visitor whose `timeIn` is 1 ms. -/
theorem future_checkin_safe_witness :
    (0 : Int) < vFuture.timeIn ∧
    (getHoursOverdue 0 vFuture.timeIn < 0 ∧
     getAlertLevel (getHoursOverdue 0 vFuture.timeIn) = "low" ∧
     vFuture ∉ fetchOverdueVisitors 0 [vFuture]) :=
  ⟨by decide, future_checkin_safe 0 vFuture [vFuture] (by decide)⟩

/-- C4: the aggregation over the overdue set always satisfies
`total = critical + high + medium` (no member lands in the low bucket),
and for the five active visitors with elapsed hours [13, 19, 25, 11, 24]
the counts are total = 4, critical = 2, high = 1, medium = 1. -/
theorem overdue_aggregation :
    (∀ (now : Int) (vs : List Visitor),
        totalOverdue now vs = criticalCount now vs + highCount now vs + mediumCount now vs) ∧
    (totalOverdue 0 exFiveVisitors = 4 ∧ criticalCount 0 exFiveVisitors = 2 ∧
      highCount 0 exFiveVisitors = 1 ∧ mediumCount 0 exFiveVisitors = 1) := by
  constructor
  · intro now vs
    unfold totalOverdue criticalCount highCount mediumCount
    apply length_bucket_partition
    intro v hv
    rcases (mem_fetchOverdue _ _ _).mp hv with ⟨-, -, hlt⟩
    exact overdue_hours_ge_twelve _ _ hlt
  · refine ⟨?_, ?_, ?_, ?_⟩
    · unfold totalOverdue
      rw [fetchOverdue_eq_intFilter]
      decide
    · unfold criticalCount
      rw [fetchOverdue_eq_intFilter]
      simp only [decide_hours_ge]
      decide
    · unfold highCount
      rw [fetchOverdue_eq_intFilter]
      simp only [decide_hours_band]
      decide
    · unfold mediumCount
      rw [fetchOverdue_eq_intFilter]
      simp only [decide_hours_band]
      decide

/-- C5: an empty or whitespace-only query leaves the visitor list
unchanged, and for every query the filtered result is an order-preserving
subsequence (sublist) of the input. -/
theorem filter_identity_and_subsequence (q : String) (vs : List Visitor) :
    (trimIsEmpty q = true → filterVisitors q vs = vs) ∧
    List.Sublist (filterVisitors q vs) vs := by
  constructor
  · intro h
    unfold filterVisitors
    rw [if_pos h]
  · unfold filterVisitors
    split_ifs with h
    · exact List.Sublist.refl vs
    · exact List.filter_sublist vs

/-- C5 witness: a whitespace-only query is the identity on a concrete
singleton list, and an arbitrary query yields a sublist of it. -/
theorem filter_identity_and_subsequence_witness :
    filterVisitors "   " [vSample] = [vSample] ∧
    List.Sublist (filterVisitors "zzz" [vSample]) [vSample] :=
  ⟨(filter_identity_and_subsequence "   " [vSample]).1 (by decide),
   (filter_identity_and_subsequence "zzz" [vSample]).2⟩

/-- C8: the displayed overdue list is always sorted descending by floored
`hoursOverdue` and is a permutation of the overdue set; for overdue
visitors with hours [13, 25, 19] the displayed order is [25, 19, 13]. -/
theorem display_sorted_desc :
    (∀ (now : Int) (vs : List Visitor),
        List.Sorted (fun a b => getHoursOverdue now b.timeIn ≤ getHoursOverdue now a.timeIn)
          (displayedOverdue now vs) ∧
        List.Perm (displayedOverdue now vs) (fetchOverdueVisitors now vs)) ∧
    displayedOverdue 0 [w13, w25, w19] = [w25, w19, w13] := by
  constructor
  · intro now vs
    constructor
    · haveI : IsTotal Visitor
          (fun a b => getHoursOverdue now b.timeIn ≤ getHoursOverdue now a.timeIn) :=
        ⟨fun a b => le_total (getHoursOverdue now b.timeIn) (getHoursOverdue now a.timeIn)⟩
      haveI : IsTrans Visitor
          (fun a b => getHoursOverdue now b.timeIn ≤ getHoursOverdue now a.timeIn) :=
        ⟨fun _ _ _ hab hbc => le_trans hbc hab⟩
      exact List.sorted_insertionSort _ _
    · exact List.perm_insertionSort _ _
  · have hf : fetchOverdueVisitors 0 [w13, w25, w19] = [w13, w25, w19] := by
      rw [fetchOverdue_eq_intFilter]
      decide
    have h13 : getHoursOverdue 0 w13.timeIn = 13 := by
      rw [getHoursOverdue_eq]
      decide
    have h25 : getHoursOverdue 0 w25.timeIn = 25 := by
      rw [getHoursOverdue_eq]
      decide
    have h19 : getHoursOverdue 0 w19.timeIn = 19 := by
      rw [getHoursOverdue_eq]
      decide
    unfold displayedOverdue
    rw [hf]
    simp only [List.insertionSort, List.orderedInsert]
    norm_num [List.orderedInsert, h13, h19, h25]

/-- C6 counterexample: for the vehicle visitor with plate `"KBC123"` and
query `"kbc"`, the raw query is NOT a substring of the `refNumber` field,
yet the refNumber predicate matches — the source lowercases `refNumber`
before matching, contradicting the claim that it is not case-folded. -/
theorem refNumber_casefold_cex :
    vPlate.refNumber = some "KBC123" ∧
    matchByRef (strLower "kbc") vPlate = true ∧
    jsIncludes "KBC123" "kbc" = false ∧
    ¬ SubstrOf "kbc" "KBC123" := by
  refine ⟨rfl, by decide, by decide, ?_⟩
  intro h
  exact absurd ((jsIncludes_iff "KBC123" "kbc").mpr h) (by decide)

/-- C6 (amended): for every non-empty query, `phoneNumber` and `idNumber`
are matched against the raw query (no case-folding), but `refNumber` is
case-folded — it matches iff the lowercased query is a substring of the
lowercased plate. -/
theorem raw_vs_folded_field_matching (q : String) (v : Visitor) (_hq : q ≠ "") :
    (matchByPhone q v = true ↔ SubstrOf q v.phoneNumber) ∧
    (matchById q v = true ↔ SubstrOf q v.idNumber) ∧
    (matchByRef (strLower q) v = true ↔
      ∃ r, v.refNumber = some r ∧ SubstrOf (strLower q) (strLower r)) := by
  refine ⟨jsIncludes_iff _ _, jsIncludes_iff _ _, ?_⟩
  unfold matchByRef optLowerIncludes
  cases href : v.refNumber with
  | none => simp
  | some r => simp [jsIncludes_iff]

/-- C6 witness at query `"07"` and the plate visitor. -/
theorem raw_vs_folded_field_matching_witness :
    (matchByPhone "07" vPlate = true ↔ SubstrOf "07" vPlate.phoneNumber) ∧
    (matchById "07" vPlate = true ↔ SubstrOf "07" vPlate.idNumber) ∧
    (matchByRef (strLower "07") vPlate = true ↔
      ∃ r, vPlate.refNumber = some r ∧ SubstrOf (strLower "07") (strLower r)) :=
  raw_vs_folded_field_matching "07" vPlate (by decide)

/-- C7 counterexample: the visitor whose `tagNumber` is `"N/A"` matches
the query `"n/a"` even though every other field predicate (including the
`"no tag"`/`"has tag"` pseudo-fields) rejects it, so the filter KEEPS the
visitor — the source applies no `"N/A"` guard on the tagNumber line. -/
theorem tagNA_included_cex :
    vTagNA.tagNumber = some "N/A" ∧
    matchByName (strLower "n/a") vTagNA = false ∧
    matchByPhone "n/a" vTagNA = false ∧
    matchById "n/a" vTagNA = false ∧
    matchByRef (strLower "n/a") vTagNA = false ∧
    matchByNoTag (strLower "n/a") vTagNA = false ∧
    matchByHasTag (strLower "n/a") vTagNA = false ∧
    matchByResidence (strLower "n/a") vTagNA = false ∧
    matchByInstitution (strLower "n/a") vTagNA = false ∧
    matchByPurpose (strLower "n/a") vTagNA = false ∧
    matchByGender (strLower "n/a") vTagNA = false ∧
    filterVisitors "n/a" [vTagNA] = [vTagNA] := by
  decide

/-- C7 (amended): a query matches via the `tagNumber` field whenever
`tagNumber` is present and the lowercased query is a substring of the
lowercased tag — with no `"N/A"` exclusion; only the `"has tag"`
pseudo-field checks `tagNumber !== "N/A"`. -/
theorem tag_match_no_na_guard (q : String) (v : Visitor) :
    matchByTag (strLower q) v = true ↔
      ∃ t, v.tagNumber = some t ∧ SubstrOf (strLower q) (strLower t) := by
  unfold matchByTag optLowerIncludes
  cases htag : v.tagNumber with
  | none => simp
  | some t => simp [jsIncludes_iff]

/-- C9: check-in writes `isCheckedOut = false` with no `timeOut`; check-out
sets `timeOut` and `isCheckedOut = true` in one update; edit preserves the
invariant `isCheckedOut == (timeOut is present)`; so every operation
maintains the invariant. -/
theorem lifecycle_invariant :
    (∀ (form : CheckInForm) (gender visitorType : String) (now : Int) (uid : String)
        (d : VisitorDoc),
        handleCheckIn form gender visitorType now uid = some d →
          d.isCheckedOut = false ∧ d.timeOut = none ∧ docInv d) ∧
    (∀ (d : VisitorDoc) (now : Int) (uid : String),
        (handleCheckOut d now uid).timeOut = some now ∧
        (handleCheckOut d now uid).isCheckedOut = true ∧
        docInv (handleCheckOut d now uid)) ∧
    (∀ (d : VisitorDoc) (form : EditForm) (now : Int) (uid : String) (d2 : VisitorDoc),
        docInv d → handleUpdateVisitor d form now uid = some d2 → docInv d2) := by
  refine ⟨?_, ?_, ?_⟩
  · intro form gender visitorType now uid d h
    unfold handleCheckIn at h
    split_ifs at h <;> cases h <;> exact ⟨rfl, rfl, rfl⟩
  · intro d now uid
    exact ⟨rfl, rfl, by simp [docInv, handleCheckOut]⟩
  · intro d form now uid d2 hinv h
    unfold handleUpdateVisitor at h
    split_ifs at h
    cases h
    simpa [docInv] using hinv

/-- C9 witness: a concrete check-in, check-out and edit. -/
theorem lifecycle_invariant_witness :
    (dCI.isCheckedOut = false ∧ dCI.timeOut = none ∧ docInv dCI) ∧
    ((handleCheckOut dCI 200 "u2").timeOut = some 200 ∧
      (handleCheckOut dCI 200 "u2").isCheckedOut = true ∧
      docInv (handleCheckOut dCI 200 "u2")) ∧
    docInv dED :=
  ⟨lifecycle_invariant.1 ciForm "Female" "foot" 100 "u1" dCI (by decide),
   lifecycle_invariant.2.1 dCI 200 "u2",
   lifecycle_invariant.2.2 dCI edForm 300 "u3" dED (by exact rfl) (by decide)⟩
